import Mathlib

/-!
# Verification of the jobpay-backend security/rate-limiting subsystem

Shallow embedding of the Redis-backed security subsystem:

* RedisSecurityService (request tracking, suspicious-IP records, advisory
  rate limiting) — source file src/unnamed/part_020;
* RedisIpBlockingService (block records, suspicious-activity counter with
  auto-escalation) — source file src/src/security/validation.service.ts;
* RedisPerformanceService (metric recording and 5-minute percentile
  aggregation) — source file src/unnamed/part_021;
* RedisService.executeOperation (fail-open fallback when the store is
  unavailable) — source file src/src/monitoring/telemetry.ts.

Modelling conventions:

* Time is milliseconds since epoch as Nat (JS Date.now()).
* The Redis keyspace is split by namespace into typed fields of a Store
  structure; keys are the inductive RKey, mirroring the string keys built in
  the source (the constructors correspond to the distinct key prefixes, which
  are disjoint in the source).
* JSON payloads written with JSON.stringify and read back with JSON.parse are
  modelled as the structured values themselves (the round-trip is the
  identity for these records).
* executeOperation is modelled by an avail : Bool parameter threaded into
  each operation: when avail = false the operation returns its fallback value
  and leaves the store untouched, exactly as the source returns the fallback
  without running the callback.
* TTLs: redis.expire / setex deadlines are recorded in Store.ttl as absolute
  expiry times in ms; key deletion (redis.del) also drops the TTL entry.
  (No claim needs TTL-driven disappearance of keys, so the embedding records
  deadlines without sweeping.)
* blockIp invocations are additionally journalled in Store.blockLog (the
  arguments of each call), so that call-count properties can be stated.
-/

set_option maxRecDepth 100000

namespace JobPay

/-- Keys of the shared key-value store, one constructor per key shape built in
the source. reqMinute/reqHour are the per-window request counters
(security:request_tracking), suspIps the suspicious-IP JSON records
(security:suspicious_ips), activity / activityDetails the suspicious-activity
counter and its auxiliary hash (security:suspicious_activity), blockedIpsSub
the per-ip key targeted by the stray expire in blockIp, metric the individual
performance-metric payload keys, statsCurrent the rolling stats hash. -/
inductive RKey where
  | reqMinute (ip : String) (window : Nat)
  | reqHour (ip : String) (window : Nat)
  | suspIps (ip : String)
  | activity (ip : String)
  | activityDetails (ip : String)
  | blockedIpsSub (ip : String)
  | metric (id : Nat)
  | statsCurrent
deriving DecidableEq, Repr

/-- The suspicious-IP record stored (as JSON) under security:suspicious_ips. -/
structure SuspiciousData where
  ip : String
  reasons : List String
  firstSeen : Nat
  lastSeen : Nat
  count : Nat
  severity : String
deriving DecidableEq, Repr

/-- The BlockedIP record stored in the security:blocked_ips hash. -/
structure BlockedIP where
  ip : String
  reason : String
  blockedAt : Nat
  expiresAt : Option Nat
  isTemporary : Bool
deriving DecidableEq, Repr

/-- The auxiliary hash written next to the suspicious-activity counter
(fields lastAttempt and activity, always written together). -/
structure ActivityDetails where
  lastAttempt : Nat
  activity : String
deriving DecidableEq, Repr

/-- A performance metric payload (memoryUsage is the process heap reading,
passed in as a parameter here). -/
structure PerfMetric where
  endpoint : String
  method : String
  responseTime : Nat
  timestamp : Nat
  statusCode : Nat
  memoryUsage : Nat
deriving DecidableEq, Repr

/-- The Redis state visible to the security subsystem. blockedIps models the
security:blocked_ips hash as an association list (field, record) in insertion
order; metricsSorted models the performance:metrics_sorted sorted set as
(score, member-id) pairs; blockLog journals the arguments of every blockIp
call (instrumentation used to state how many times blockIp was invoked);
stats* are the three fields of the performance:system_stats:current hash. -/
structure Store where
  counters : RKey → Option Nat
  suspicious : RKey → Option SuspiciousData
  blockedIps : List (String × BlockedIP)
  details : RKey → Option ActivityDetails
  metrics : Nat → Option PerfMetric
  metricsSorted : List (Nat × Nat)
  blockLog : List (String × String × Option Nat)
  ttl : RKey → Option Nat
  statsTotal : Nat
  statsSuccess : Nat
  statsFailed : Nat

/-- The store with no keys. -/
def Store.empty : Store :=
  { counters := fun _ => none
    suspicious := fun _ => none
    blockedIps := []
    details := fun _ => none
    metrics := fun _ => none
    metricsSorted := []
    blockLog := []
    ttl := fun _ => none
    statsTotal := 0
    statsSuccess := 0
    statsFailed := 0 }

/-- Pointwise update of a keyed map (a set/del on one key). -/
def upd {α : Type} (f : RKey → Option α) (k : RKey) (v : Option α) : RKey → Option α :=
  fun k' => if k' = k then v else f k'

@[simp]
theorem upd_same {α : Type} (f : RKey → Option α) (k : RKey) (v : Option α) :
    upd f k v k = v := by
  simp [upd]

theorem upd_other {α : Type} (f : RKey → Option α) (k k' : RKey) (v : Option α)
    (h : k' ≠ k) : upd f k v k' = f k' := by
  simp [upd, h]

/-- redis.hget on an association-list hash. -/
def hget {β : Type} (h : List (String × β)) (field : String) : Option β :=
  (h.find? (fun p => p.1 = field)).map Prod.snd

/-- redis.hdel on an association-list hash. -/
def hdel {β : Type} (h : List (String × β)) (field : String) : List (String × β) :=
  h.filter (fun p => ¬ p.1 = field)

/-- redis.hset on an association-list hash: the field's value is replaced.
Field order inside a Redis hash is unspecified, so the model removes the old
binding and appends the new one. -/
def hset {β : Type} (h : List (String × β)) (field : String) (v : β) :
    List (String × β) :=
  hdel h field ++ [(field, v)]

namespace Security

/-- Result record of RedisSecurityService.trackRequest. -/
structure TrackResult where
  isBlocked : Bool
  isDdos : Bool
  requestCount : Nat
deriving DecidableEq, Repr

/-- Result record of RedisSecurityService.shouldRateLimit. -/
structure RateLimitResult where
  shouldLimit : Bool
  remainingRequests : Nat
  resetTime : Nat
deriving DecidableEq, Repr

/-- RedisSecurityService.addToSuspiciousIps (src/unnamed/part_020, lines
77-115): read the existing suspicious record, append the reason, bump the
count, recompute severity from the previous count (parsed.count > 5), update
lastSeen, and setex the record with a 24-hour TTL. When the store is
unavailable the executeOperation fallback (undefined) leaves the state
untouched. -/
def addToSuspiciousIps (avail : Bool) (now : Nat) (clientIp reason : String)
    (s : Store) : Store :=
  if avail then
    let key := RKey.suspIps clientIp
    let suspiciousData : SuspiciousData :=
      match s.suspicious key with
      | none =>
        { ip := clientIp, reasons := [reason], firstSeen := now, lastSeen := now
          count := 1, severity := "medium" }
      | some parsed =>
        { parsed with
            reasons := parsed.reasons ++ [reason]
            lastSeen := now
            count := parsed.count + 1
            severity := if parsed.count > 5 then "high" else "medium" }
    { s with
        suspicious := upd s.suspicious key (some suspiciousData)
        ttl := upd s.ttl key (some (now + 24 * 60 * 60 * 1000)) }
  else s

/-- RedisSecurityService.trackRequest (src/unnamed/part_020, lines 16-72):
pipeline incr + expire on the minute- and hour-window counters, thresholds
500/min, 5000/hour, DDoS at 1000/min; on isBlocked or isDdos also record a
suspicious-IP entry. On store unavailability: fallback
isBlocked=false, isDdos=false, requestCount=0. -/
def trackRequest (avail : Bool) (now : Nat) (clientIp : String) (s : Store) :
    TrackResult × Store :=
  if avail then
    let minuteWindow := now / 60000
    let hourWindow := now / 3600000
    let minuteKey := RKey.reqMinute clientIp minuteWindow
    let hourKey := RKey.reqHour clientIp hourWindow
    let minuteCount := (s.counters minuteKey).getD 0 + 1
    let hourCount := (s.counters hourKey).getD 0 + 1
    let s1 : Store :=
      { s with
          counters := upd (upd s.counters minuteKey (some minuteCount)) hourKey
            (some hourCount)
          ttl := upd (upd s.ttl minuteKey (some (now + 60 * 1000))) hourKey
            (some (now + 3600 * 1000)) }
    let isBlocked := decide (minuteCount > 500) || decide (hourCount > 5000)
    let isDdos := decide (minuteCount > 1000)
    let s2 :=
      if isBlocked || isDdos then
        addToSuspiciousIps avail now clientIp
          ("High request rate: " ++ toString minuteCount ++ "/min, " ++
            toString hourCount ++ "/hour") s1
      else s1
    ({ isBlocked := isBlocked, isDdos := isDdos, requestCount := minuteCount }, s2)
  else
    ({ isBlocked := false, isDdos := false, requestCount := 0 }, s)

/-- RedisSecurityService.shouldRateLimit (src/unnamed/part_020, lines
189-221): read-only check of the current minute counter against 500.
remainingRequests is Math.max(0, 500 - c), which truncated Nat subtraction
matches exactly. Fallback: shouldLimit=false, remainingRequests=500,
resetTime = Date.now() + 60000. -/
def shouldRateLimit (avail : Bool) (now : Nat) (clientIp : String) (s : Store) :
    RateLimitResult × Store :=
  if avail then
    let minuteWindow := now / 60000
    let key := RKey.reqMinute clientIp minuteWindow
    let requestCount := (s.counters key).getD 0
    ({ shouldLimit := decide (requestCount ≥ 500)
       remainingRequests := 500 - requestCount
       resetTime := (minuteWindow + 1) * 60000 }, s)
  else
    ({ shouldLimit := false, remainingRequests := 500, resetTime := now + 60000 }, s)

end Security

namespace Blocking

/-- RedisIpBlockingService.blockIp (validation.service.ts, lines 314-345):
write a BlockedIP record into the security:blocked_ips hash under field ip.
The source computes expiresAt with "durationMinutes ? ... : undefined" and
isTemporary with "!!durationMinutes": JS truthiness, so a present duration of
0 behaves like an absent one. If the duration is truthy it also expires the
(otherwise unused) key blocked_ips:ip. The call's arguments are journalled in
blockLog. -/
def blockIp (avail : Bool) (now : Nat) (ip reason : String)
    (durationMinutes : Option Nat) (s : Store) : Store :=
  if avail then
    let truthy : Bool :=
      match durationMinutes with
      | some n => n != 0
      | none => false
    let expiresAt : Option Nat :=
      if truthy then some (now + durationMinutes.getD 0 * 60000) else none
    let blockedIP : BlockedIP :=
      { ip := ip, reason := reason, blockedAt := now, expiresAt := expiresAt
        isTemporary := truthy }
    let s1 : Store :=
      { s with
          blockedIps := hset s.blockedIps ip blockedIP
          blockLog := s.blockLog ++ [(ip, reason, durationMinutes)] }
    if truthy then
      { s1 with
          ttl := upd s1.ttl (RKey.blockedIpsSub ip)
            (some (now + durationMinutes.getD 0 * 60 * 1000)) }
    else s1
  else s

/-- RedisIpBlockingService.unblockIp (validation.service.ts, lines 350-363):
hdel the field; returns whether a field was removed. Fallback: false. -/
def unblockIp (avail : Bool) (ip : String) (s : Store) : Bool × Store :=
  if avail then
    (s.blockedIps.any (fun p => p.1 = ip), { s with blockedIps := hdel s.blockedIps ip })
  else (false, s)

/-- RedisIpBlockingService.isBlocked (validation.service.ts, lines 368-387):
absent record gives false; a temporary record whose expiresAt is strictly in
the past is removed via unblockIp and gives false; otherwise true.
Fallback: false. -/
def isBlocked (avail : Bool) (now : Nat) (ip : String) (s : Store) : Bool × Store :=
  if avail then
    match hget s.blockedIps ip with
    | none => (false, s)
    | some blocked =>
      let expired : Bool := blocked.isTemporary &&
        (match blocked.expiresAt with
         | some e => decide (e < now)
         | none => false)
      if expired then (false, (unblockIp avail ip s).2)
      else (true, s)
  else (false, s)

/-- RedisIpBlockingService.getBlockedIps (validation.service.ts, lines
432-441): Object.values over the hash. Fallback: empty list. -/
def getBlockedIps (avail : Bool) (s : Store) : List BlockedIP :=
  if avail then s.blockedIps.map Prod.snd else []

/-- RedisIpBlockingService.trackSuspiciousActivity (validation.service.ts,
lines 392-427): atomically increment the per-ip attempt counter; on the
increment that sets it to 1, set a 1-hour TTL; always rewrite the details
hash (lastAttempt, activity) and reset its 1-hour TTL; when attempts reaches
5 or more, call blockIp with a 60-minute duration and delete both the counter
and the details hash. -/
def trackSuspiciousActivity (avail : Bool) (now : Nat) (ip activity : String)
    (s : Store) : Store :=
  if avail then
    let activityKey := RKey.activity ip
    let detailsKey := RKey.activityDetails ip
    let attempts := (s.counters activityKey).getD 0 + 1
    let s1 : Store := { s with counters := upd s.counters activityKey (some attempts) }
    let s2 : Store :=
      if attempts = 1 then
        { s1 with ttl := upd s1.ttl activityKey (some (now + 3600 * 1000)) }
      else s1
    let s3 : Store :=
      { s2 with
          details := upd s2.details detailsKey
            (some { lastAttempt := now, activity := activity })
          ttl := upd s2.ttl detailsKey (some (now + 3600 * 1000)) }
    if attempts ≥ 5 then
      let s4 := blockIp avail now ip ("Multiple suspicious activities: " ++ activity)
        (some 60) s3
      { s4 with
          counters := upd s4.counters activityKey none
          details := upd s4.details detailsKey none
          ttl := upd (upd s4.ttl activityKey none) detailsKey none }
    else s3
  else s

/-- RedisIpBlockingService.importMaliciousIpList (validation.service.ts,
lines 525-547): pipelined hset of a permanent BlockedIP record per ip (the
source builds each record with blockedAt = new Date() inside the loop; the
single now parameter stands for the call's clock reading). -/
def importMaliciousIpList (avail : Bool) (now : Nat) (ips : List String)
    (reason : String) (s : Store) : Store :=
  if avail then
    { s with
        blockedIps := ips.foldl
          (fun h ip =>
            hset h ip
              { ip := ip, reason := reason, blockedAt := now, expiresAt := none
                isTemporary := false }) s.blockedIps }
  else s

end Blocking

namespace Perf

/-- redis.zadd on the (score, member) list: update the member's score if
present, append otherwise. -/
def zadd (zset : List (Nat × Nat)) (score member : Nat) : List (Nat × Nat) :=
  if zset.any (fun e => e.2 = member) then
    zset.map (fun e => if e.2 = member then (score, member) else e)
  else zset ++ [(score, member)]

/-- redis.zrangebyscore: members whose score lies in [lo, hi], ordered by
score (tie order among equal scores is irrelevant below: every use re-sorts
or counts the results). Bounds are Int because the source computes them as
Date.now() minus a window, which can be negative. -/
def zrangebyscore (zset : List (Nat × Nat)) (lo hi : Int) : List Nat :=
  ((zset.filter (fun e => lo ≤ (e.1 : Int) && (e.1 : Int) ≤ hi)).insertionSort
    (fun a b => a.1 ≤ b.1)).map Prod.snd

/-- RedisPerformanceService.recordMetric (src/unnamed/part_021, lines
45-91): setex the metric payload with a 24h TTL under a fresh key (id stands
for the timestamp+random suffix), zadd it to the time-ordered index with
score = now, zremrangebyscore the index over [0, now - 24h], and update the
rolling stats hash (updateSystemStats: total/successful/failed counters with
a 1-hour TTL). memUsed stands for process.memoryUsage().heapUsed. -/
def recordMetric (avail : Bool) (now : Nat) (id : Nat) (endpoint method : String)
    (responseTime statusCode memUsed : Nat) (s : Store) : Store :=
  if avail then
    let metric : PerfMetric :=
      { endpoint := endpoint, method := method, responseTime := responseTime
        timestamp := now, statusCode := statusCode, memoryUsage := memUsed }
    let oneDayAgo : Int := (now : Int) - 24 * 60 * 60 * 1000
    let s1 : Store :=
      { s with
          metrics := fun i => if i = id then some metric else s.metrics i
          ttl := upd s.ttl (RKey.metric id) (some (now + 24 * 60 * 60 * 1000))
          metricsSorted :=
            (zadd s.metricsSorted now id).filter (fun e => !((e.1 : Int) ≤ oneDayAgo)) }
    let success : Bool := decide (200 ≤ statusCode) && decide (statusCode < 400)
    { s1 with
        statsTotal := s1.statsTotal + 1
        statsSuccess := s1.statsSuccess + (if success then 1 else 0)
        statsFailed := s1.statsFailed + (if success then 0 else 1)
        ttl := upd s1.ttl RKey.statsCurrent (some (now + 3600 * 1000)) }
  else s

/-- The responseTime block of SystemMetrics. The source computes average as a
JS float; it is embedded as an exact rational (every claim checked below
evaluates it at exactly representable points). -/
structure ResponseTimeStats where
  average : ℚ
  p95 : Nat
  p99 : Nat
deriving DecidableEq, Repr

/-- The store-derived part of SystemMetrics (cpuUsage and memoryUsage read
process state, not the store, and are outside the embedded fragment). -/
structure SystemMetricsCore where
  responseTime : ResponseTimeStats
  total : Nat
  successful : Nat
  failed : Nat
deriving DecidableEq, Repr

/-- RedisPerformanceService.getSystemMetrics (src/unnamed/part_021, lines
96-158): fetch the index entries scored within the last 5 minutes,
dereference their payloads (skipping stale entries), sort the response times
ascending, and compute average, p95, p99 and success/fail counts.
The percentile indices Math.floor(length * 0.95) and Math.floor(length *
0.99) are embedded as length * 95 / 100 and length * 99 / 100 (Nat
division); for every length the double-precision evaluation in the source
agrees with the exact value, since the rounding error of 0.95 and 0.99 is
below half an ulp of the product. responseTimes[i] with the or-zero guard is
List.getD i 0. -/
def getSystemMetrics (avail : Bool) (now : Nat) (s : Store) : SystemMetricsCore :=
  if avail then
    let last5Minutes : Int := (now : Int) - 5 * 60 * 1000
    let metricKeys := zrangebyscore s.metricsSorted last5Minutes (now : Int)
    let recentMetrics := metricKeys.filterMap (fun k => s.metrics k)
    let responseTimes : List Nat :=
      (recentMetrics.map (fun m => m.responseTime)).insertionSort (fun a b => a ≤ b)
    let average : ℚ :=
      if responseTimes.length > 0 then
        ((responseTimes.map (fun t => (t : ℚ))).sum : ℚ) / (responseTimes.length : ℚ)
      else 0
    let p95Index := responseTimes.length * 95 / 100
    let p99Index := responseTimes.length * 99 / 100
    let total := recentMetrics.length
    let successful :=
      (recentMetrics.filter (fun m => decide (200 ≤ m.statusCode) &&
        decide (m.statusCode < 400))).length
    { responseTime :=
        { average := average
          p95 := responseTimes.getD p95Index 0
          p99 := responseTimes.getD p99Index 0 }
      total := total
      successful := successful
      failed := total - successful }
  else
    { responseTime := { average := 0, p95 := 0, p99 := 0 }
      total := 0, successful := 0, failed := 0 }

end Perf

/-- Iterated trackRequest (store effect only) over a list of call times, all
for the same client, with the store available. -/
def trackRequestRuns (ip : String) (ts : List Nat) (s : Store) : Store :=
  ts.foldl (fun s t => (Security.trackRequest true t ip s).2) s

/-- Iterated addToSuspiciousIps over (time, reason) events for one client. -/
def addRuns (ip : String) (evs : List (Nat × String)) (s : Store) : Store :=
  evs.foldl (fun s e => Security.addToSuspiciousIps true e.1 ip e.2 s) s

/-- Iterated trackSuspiciousActivity over (time, activity) events for one
client. -/
def tsaRuns (ip : String) (evs : List (Nat × String)) (s : Store) : Store :=
  evs.foldl (fun s e => Blocking.trackSuspiciousActivity true e.1 ip e.2 s) s

/-- The update applied by addToSuspiciousIps to an existing suspicious
record: reason appended, lastSeen refreshed, count incremented, severity
recomputed from the previous count (the source tests parsed.count > 5). -/
def updSusp (now : Nat) (reason : String) (d : SuspiciousData) : SuspiciousData :=
  { d with
      reasons := d.reasons ++ [reason]
      lastSeen := now
      count := d.count + 1
      severity := if d.count > 5 then "high" else "medium" }

/-- Spec-described view for claim C8: the response times of the metrics
recorded in the last 5 minutes, sorted ascending. -/
def recentResponseTimesSorted (now : Nat) (s : Store) : List Nat :=
  (((Perf.zrangebyscore s.metricsSorted ((now : Int) - 5 * 60 * 1000)
      (now : Int)).filterMap s.metrics).map (fun m => m.responseTime)).insertionSort
    (fun a b => a ≤ b)

/-- The synthetic response-time set of claim C8: 10, 20, ..., 1000. -/
def c8Times : List Nat := (List.range 100).map (fun i => (i + 1) * 10)

/-- Store obtained by recording the 100 synthetic metrics of claim C8 (all at
one instant, distinct key suffixes, status 200). -/
def c8Store : Store :=
  (List.range 100).foldl
    (fun s i =>
      Perf.recordMetric true 1000000000 i "/api/jobs" "GET" ((i + 1) * 10) 200 0 s)
    Store.empty

/-- A concrete temporary block record that expires at 100ms (used as a
concrete input below). -/
def c5Rec : BlockedIP :=
  { ip := "1.2.3.4", reason := "r", blockedAt := 0, expiresAt := some 100
    isTemporary := true }

/-- A store holding only the expired temporary block c5Rec. -/
def c5Store : Store :=
  { Store.empty with blockedIps := [("1.2.3.4", c5Rec)] }

/-! ## Frame lemmas: which fields each operation leaves untouched -/

theorem addToSuspiciousIps_counters (a : Bool) (n : Nat) (i r : String) (s : Store) :
    (Security.addToSuspiciousIps a n i r s).counters = s.counters := by
  cases a <;> rfl

theorem addToSuspiciousIps_blockLog (a : Bool) (n : Nat) (i r : String) (s : Store) :
    (Security.addToSuspiciousIps a n i r s).blockLog = s.blockLog := by
  cases a <;> rfl

theorem blockIp_counters (n : Nat) (i r : String) (d : Option Nat) (s : Store) :
    (Blocking.blockIp true n i r d s).counters = s.counters := by
  unfold Blocking.blockIp
  simp only [if_true]
  split <;> rfl

theorem blockIp_details (n : Nat) (i r : String) (d : Option Nat) (s : Store) :
    (Blocking.blockIp true n i r d s).details = s.details := by
  unfold Blocking.blockIp
  simp only [if_true]
  split <;> rfl

theorem blockIp_blockLog (n : Nat) (i r : String) (d : Option Nat) (s : Store) :
    (Blocking.blockIp true n i r d s).blockLog = s.blockLog ++ [(i, r, d)] := by
  unfold Blocking.blockIp
  simp only [if_true]
  split <;> rfl

theorem blockIp_ttl_activity (n : Nat) (i r : String) (d : Option Nat) (s : Store)
    (k : RKey) (hk : ∀ ip, k ≠ RKey.blockedIpsSub ip) :
    (Blocking.blockIp true n i r d s).ttl k = s.ttl k := by
  unfold Blocking.blockIp
  simp only [if_true]
  split
  · exact upd_other _ _ _ _ (hk i)
  · exact rfl

/-! ## Association-list hash lemmas -/

theorem hget_cons {β : Type} (p : String × β) (t : List (String × β)) (x : String) :
    hget (p :: t) x = if p.1 = x then some p.2 else hget t x := by
  by_cases hp : p.1 = x <;> simp [hget, List.find?_cons, hp]

theorem hget_append {β : Type} (h₁ h₂ : List (String × β)) (x : String) :
    hget (h₁ ++ h₂) x = ((hget h₁ x).elim (hget h₂ x) some) := by
  induction h₁ with
  | nil => simp [hget]
  | cons p t ih =>
    by_cases hp : p.1 = x <;>
      simp [List.cons_append, hget_cons, hp, ih]

theorem hget_hdel {β : Type} (h : List (String × β)) (f x : String) :
    hget (hdel h f) x = if x = f then none else hget h x := by
  induction h with
  | nil => simp [hget, hdel]
  | cons p t ih =>
    by_cases hp : p.1 = f
    · rw [show hdel (p :: t) f = hdel t f by simp [hdel, List.filter_cons, hp]]
      rw [ih, hget_cons]
      by_cases hx : x = f
      · simp [hx]
      · simp [hx, show ¬ p.1 = x from fun hc => hx (by rw [← hc, hp])]
    · rw [show hdel (p :: t) f = p :: hdel t f by simp [hdel, List.filter_cons, hp]]
      rw [hget_cons, hget_cons, ih]
      by_cases hpx : p.1 = x
      · have hx : ¬ x = f := fun hc => hp (by rw [hpx, hc])
        simp [hpx, hx]
      · simp [hpx]

theorem hget_hdel_same {β : Type} (h : List (String × β)) (f : String) :
    hget (hdel h f) f = none := by
  simp [hget_hdel]

theorem hget_hset_same {β : Type} (h : List (String × β)) (f : String) (v : β) :
    hget (hset h f v) f = some v := by
  rw [hset, hget_append, hget_hdel]
  simp [hget_cons]

theorem hget_hset_other {β : Type} (h : List (String × β)) (f x : String) (v : β)
    (hx : x ≠ f) :
    hget (hset h f v) x = hget h x := by
  rw [hset, hget_append, hget_hdel, if_neg hx]
  cases hv : hget h x with
  | none => simp [hget_cons, Ne.symm hx, hget]
  | some b => simp

theorem mem_hset {β : Type} (h : List (String × β)) (f : String) (v : β)
    (q : String × β) (hq : q ∈ hset h f v) : q ∈ h ∨ q = (f, v) := by
  rw [hset] at hq
  rcases List.mem_append.mp hq with hq | hq
  · exact Or.inl (List.mem_of_mem_filter hq)
  · right; simpa using hq

/-! ## trackRequest: result and counter effect -/

theorem trackRequest_fst (now : Nat) (ip : String) (s : Store) :
    (Security.trackRequest true now ip s).1 =
      { isBlocked :=
          decide (500 < (s.counters (RKey.reqMinute ip (now / 60000))).getD 0 + 1) ||
          decide (5000 < (s.counters (RKey.reqHour ip (now / 3600000))).getD 0 + 1)
        isDdos := decide (1000 < (s.counters (RKey.reqMinute ip (now / 60000))).getD 0 + 1)
        requestCount := (s.counters (RKey.reqMinute ip (now / 60000))).getD 0 + 1 } :=
  rfl

theorem trackRequest_counters (now : Nat) (ip : String) (s : Store) :
    (Security.trackRequest true now ip s).2.counters =
      upd (upd s.counters (RKey.reqMinute ip (now / 60000))
          (some ((s.counters (RKey.reqMinute ip (now / 60000))).getD 0 + 1)))
        (RKey.reqHour ip (now / 3600000))
        (some ((s.counters (RKey.reqHour ip (now / 3600000))).getD 0 + 1)) := by
  unfold Security.trackRequest
  simp only [if_true]
  split
  · exact addToSuspiciousIps_counters ..
  · exact rfl

theorem trackRequest_minute_counter (t : Nat) (ip : String) (s : Store) (w' : Nat) :
    ((Security.trackRequest true t ip s).2.counters (RKey.reqMinute ip w')).getD 0 =
      (s.counters (RKey.reqMinute ip w')).getD 0 +
        (if w' = t / 60000 then 1 else 0) := by
  rw [trackRequest_counters]
  rcases eq_or_ne w' (t / 60000) with h | h <;> simp [upd, h]

theorem trackRequestRuns_minute_counter (ip : String) (w : Nat) (ts : List Nat)
    (hw : ∀ t ∈ ts, t / 60000 = w) (s : Store) (w' : Nat) :
    ((trackRequestRuns ip ts s).counters (RKey.reqMinute ip w')).getD 0 =
      (s.counters (RKey.reqMinute ip w')).getD 0 +
        (if w' = w then ts.length else 0) := by
  induction ts generalizing s with
  | nil => simp [trackRequestRuns]
  | cons t rest ih =>
    have hw' : ∀ t' ∈ rest, t' / 60000 = w := fun t' ht' => hw t' (List.mem_cons_of_mem _ ht')
    have ht : t / 60000 = w := hw t (List.mem_cons_self t rest)
    show ((trackRequestRuns ip rest (Security.trackRequest true t ip s).2).counters
      (RKey.reqMinute ip w')).getD 0 = _
    rw [ih hw', trackRequest_minute_counter, ht]
    rcases eq_or_ne w' w with h | h
    · simp [h]
      omega
    · simp [h]

/-- C1: for every clientId, trackRequest returns isBlocked exactly when the
post-increment minute count exceeds 500 or the post-increment hour count
exceeds 5000, isDdos exactly when the post-increment minute count exceeds
1000, and requestCount equal to the post-increment minute count. -/
theorem trackRequest_result_spec (now : Nat) (ip : String) (s : Store) :
    (Security.trackRequest true now ip s).1 =
      { isBlocked :=
          decide ((s.counters (RKey.reqMinute ip (now / 60000))).getD 0 + 1 > 500 ∨
            (s.counters (RKey.reqHour ip (now / 3600000))).getD 0 + 1 > 5000)
        isDdos :=
          decide ((s.counters (RKey.reqMinute ip (now / 60000))).getD 0 + 1 > 1000)
        requestCount := (s.counters (RKey.reqMinute ip (now / 60000))).getD 0 + 1 } := by
  rw [trackRequest_fst]
  simp [Bool.decide_or]

/-- C3: with the store unavailable, every protective operation returns its
documented fail-open default and leaves the store untouched: trackRequest
returns isBlocked=false, isDdos=false, requestCount=0; isBlocked returns
false; shouldRateLimit returns shouldLimit=false, remainingRequests=500,
resetTime=now+60000. -/
theorem failOpen_defaults (now : Nat) (ip : String) (s : Store) :
    Security.trackRequest false now ip s =
      ({ isBlocked := false, isDdos := false, requestCount := 0 }, s) ∧
    Blocking.isBlocked false now ip s = (false, s) ∧
    Security.shouldRateLimit false now ip s =
      ({ shouldLimit := false, remainingRequests := 500, resetTime := now + 60000 }, s) :=
  ⟨rfl, rfl, rfl⟩

/-- C2: starting from a store where the client's minute counters are fresh,
after N-1 tracked calls whose times all fall into minute window w, the Nth
call in window w returns requestCount = N; a call in a different (fresh)
window w' returns requestCount = 1. -/
theorem trackRequest_window_monotonic (ip : String) (w : Nat) (ts : List Nat)
    (s0 : Store) (hw : ∀ t ∈ ts, t / 60000 = w) (t : Nat) :
    (s0.counters (RKey.reqMinute ip w) = none → t / 60000 = w →
      (Security.trackRequest true t ip (trackRequestRuns ip ts s0)).1.requestCount =
        ts.length + 1) ∧
    (∀ w', w' ≠ w → s0.counters (RKey.reqMinute ip w') = none → t / 60000 = w' →
      (Security.trackRequest true t ip (trackRequestRuns ip ts s0)).1.requestCount = 1) := by
  constructor
  · intro h0 ht
    rw [trackRequest_fst]
    show ((trackRequestRuns ip ts s0).counters (RKey.reqMinute ip (t / 60000))).getD 0 + 1 = _
    rw [ht, trackRequestRuns_minute_counter ip w ts hw s0 w, if_pos rfl, h0]
    simp
  · intro w' hw' h0 ht
    rw [trackRequest_fst]
    show ((trackRequestRuns ip ts s0).counters (RKey.reqMinute ip (t / 60000))).getD 0 + 1 = _
    rw [ht, trackRequestRuns_minute_counter ip w ts hw s0 w', if_neg hw', h0]
    rfl

/-- Witness for C2: two calls at 1ms and 2ms (window 0), then a third call at
3ms returns requestCount 3, while a call at 60000ms (window 1) returns
requestCount 1. -/
theorem trackRequest_window_monotonic_witness :
    (Security.trackRequest true 3 "1.2.3.4"
      (trackRequestRuns "1.2.3.4" [1, 2] Store.empty)).1.requestCount = 3 ∧
    (Security.trackRequest true 60000 "1.2.3.4"
      (trackRequestRuns "1.2.3.4" [1, 2] Store.empty)).1.requestCount = 1 :=
  ⟨(trackRequest_window_monotonic "1.2.3.4" 0 [1, 2] Store.empty
      (by decide) 3).1 rfl (by decide),
   (trackRequest_window_monotonic "1.2.3.4" 0 [1, 2] Store.empty
      (by decide) 60000).2 1 (by decide) rfl (by decide)⟩

/-- C10: with the stored minute-window count c, shouldRateLimit returns
shouldLimit = (c ≥ 500) and remainingRequests = max(0, 500 - c), so
shouldLimit holds exactly when remainingRequests = 0, and the store is not
mutated; moreover a client whose stored minute count reaches exactly 500
(499 before the tracking call) is rate-limited by shouldRateLimit even
though that same trackRequest call reports isBlocked = false, the blocking
threshold being strictly greater than 500. -/
theorem shouldRateLimit_spec (now : Nat) (ip : String) (s : Store) :
    ((Security.shouldRateLimit true now ip s).1.shouldLimit =
        decide (500 ≤ (s.counters (RKey.reqMinute ip (now / 60000))).getD 0) ∧
      (Security.shouldRateLimit true now ip s).1.remainingRequests =
        500 - (s.counters (RKey.reqMinute ip (now / 60000))).getD 0 ∧
      ((Security.shouldRateLimit true now ip s).1.shouldLimit = true ↔
        (Security.shouldRateLimit true now ip s).1.remainingRequests = 0) ∧
      (Security.shouldRateLimit true now ip s).2 = s) ∧
    (s.counters (RKey.reqMinute ip (now / 60000)) = some 499 →
      (s.counters (RKey.reqHour ip (now / 3600000))).getD 0 + 1 ≤ 5000 →
      (Security.trackRequest true now ip s).1.isBlocked = false ∧
      (Security.shouldRateLimit true now ip
        (Security.trackRequest true now ip s).2).1.shouldLimit = true) := by
  refine ⟨⟨rfl, rfl, ?_, rfl⟩, ?_⟩
  · show decide (500 ≤ (s.counters (RKey.reqMinute ip (now / 60000))).getD 0) = true ↔
      500 - (s.counters (RKey.reqMinute ip (now / 60000))).getD 0 = 0
    simp [Nat.sub_eq_zero_iff_le]
  · intro hminute hhour
    constructor
    · rw [trackRequest_fst]
      have h1 : (s.counters (RKey.reqMinute ip (now / 60000))).getD 0 = 499 := by
        rw [hminute]; rfl
      show (decide _ || decide _) = false
      rw [Bool.or_eq_false_iff, decide_eq_false_iff_not, decide_eq_false_iff_not, h1]
      omega
    · show decide (500 ≤ ((Security.trackRequest true now ip s).2.counters
        (RKey.reqMinute ip (now / 60000))).getD 0) = true
      rw [trackRequest_counters, upd_other _ _ _ _ (by simp), upd_same, hminute]
      decide

/-- Witness for C10: a store whose minute counter for window 0 holds 499 and
whose hour counter is absent, probed at now = 7ms. -/
theorem shouldRateLimit_spec_witness :
    (Security.trackRequest true 7 "1.2.3.4"
      { Store.empty with
          counters := upd Store.empty.counters (RKey.reqMinute "1.2.3.4" 0)
            (some 499) }).1.isBlocked = false ∧
    (Security.shouldRateLimit true 7 "1.2.3.4"
      (Security.trackRequest true 7 "1.2.3.4"
        { Store.empty with
            counters := upd Store.empty.counters (RKey.reqMinute "1.2.3.4" 0)
              (some 499) }).2).1.shouldLimit = true :=
  (shouldRateLimit_spec 7 "1.2.3.4"
    { Store.empty with
        counters := upd Store.empty.counters (RKey.reqMinute "1.2.3.4" 0) (some 499) }).2
    (by decide) (by decide)

/-! ## trackSuspiciousActivity: per-call effect on counter, log, details -/

theorem tsa_counter_step (now : Nat) (ip activity : String) (s : Store) :
    (Blocking.trackSuspiciousActivity true now ip activity s).counters (RKey.activity ip) =
      if 5 ≤ (s.counters (RKey.activity ip)).getD 0 + 1 then none
      else some ((s.counters (RKey.activity ip)).getD 0 + 1) := by
  by_cases h5 : 5 ≤ (s.counters (RKey.activity ip)).getD 0 + 1 <;>
    by_cases h1 : (s.counters (RKey.activity ip)).getD 0 + 1 = 1 <;>
      simp [Blocking.trackSuspiciousActivity, h5, h1, upd]

theorem tsa_blockLog_step (now : Nat) (ip activity : String) (s : Store) :
    (Blocking.trackSuspiciousActivity true now ip activity s).blockLog =
      if 5 ≤ (s.counters (RKey.activity ip)).getD 0 + 1 then
        s.blockLog ++ [(ip, "Multiple suspicious activities: " ++ activity, some 60)]
      else s.blockLog := by
  by_cases h5 : 5 ≤ (s.counters (RKey.activity ip)).getD 0 + 1 <;>
    by_cases h1 : (s.counters (RKey.activity ip)).getD 0 + 1 = 1 <;>
      simp [Blocking.trackSuspiciousActivity, h5, h1, blockIp_blockLog]

theorem tsa_details_step (now : Nat) (ip activity : String) (s : Store) :
    (Blocking.trackSuspiciousActivity true now ip activity s).details
      (RKey.activityDetails ip) =
      if 5 ≤ (s.counters (RKey.activity ip)).getD 0 + 1 then none
      else some { lastAttempt := now, activity := activity } := by
  by_cases h5 : 5 ≤ (s.counters (RKey.activity ip)).getD 0 + 1 <;>
    by_cases h1 : (s.counters (RKey.activity ip)).getD 0 + 1 = 1 <;>
      simp [Blocking.trackSuspiciousActivity, h5, h1, blockIp_details, upd]

/-- C9: the 1-hour TTL on the suspicious-activity counter is set exactly on
the increment that brings it to 1; an increment from an existing count that
stays below the escalation threshold leaves the TTL entry untouched; the
escalating increment deletes the counter (and its TTL) rather than resetting
it. -/
theorem trackSuspiciousActivity_ttl_once (now : Nat) (ip activity : String) (s : Store) :
    ((s.counters (RKey.activity ip)).getD 0 = 0 →
      (Blocking.trackSuspiciousActivity true now ip activity s).ttl (RKey.activity ip) =
        some (now + 3600 * 1000)) ∧
    (∀ c, s.counters (RKey.activity ip) = some c → 1 ≤ c → c + 1 < 5 →
      (Blocking.trackSuspiciousActivity true now ip activity s).ttl (RKey.activity ip) =
        s.ttl (RKey.activity ip)) ∧
    (∀ c, s.counters (RKey.activity ip) = some c → 5 ≤ c + 1 →
      (Blocking.trackSuspiciousActivity true now ip activity s).ttl (RKey.activity ip) =
        none) := by
  refine ⟨fun h0 => ?_, fun c hc h1 h5 => ?_, fun c hc h5 => ?_⟩
  · simp [Blocking.trackSuspiciousActivity, h0, upd]
  · have hc0 : (s.counters (RKey.activity ip)).getD 0 = c := by rw [hc]; rfl
    have hne1 : ¬ ((s.counters (RKey.activity ip)).getD 0 + 1 = 1) := by omega
    have hlt5 : ¬ (5 ≤ (s.counters (RKey.activity ip)).getD 0 + 1) := by omega
    simp [Blocking.trackSuspiciousActivity, hne1, hlt5, upd]
  · have hc0 : (s.counters (RKey.activity ip)).getD 0 = c := by rw [hc]; rfl
    have hne1 : ¬ ((s.counters (RKey.activity ip)).getD 0 + 1 = 1) := by omega
    have hge5 : 5 ≤ (s.counters (RKey.activity ip)).getD 0 + 1 := by omega
    simp [Blocking.trackSuspiciousActivity, hne1, hge5, upd]

/-- Witness for C9: first incident at 50ms sets the 1-hour TTL; the second
incident at 99ms leaves it untouched. -/
theorem trackSuspiciousActivity_ttl_once_witness :
    (Blocking.trackSuspiciousActivity true 50 "1.2.3.4" "x" Store.empty).ttl
      (RKey.activity "1.2.3.4") = some (50 + 3600 * 1000) ∧
    (Blocking.trackSuspiciousActivity true 99 "1.2.3.4" "y"
        (Blocking.trackSuspiciousActivity true 50 "1.2.3.4" "x" Store.empty)).ttl
      (RKey.activity "1.2.3.4") =
      (Blocking.trackSuspiciousActivity true 50 "1.2.3.4" "x" Store.empty).ttl
        (RKey.activity "1.2.3.4") :=
  ⟨(trackSuspiciousActivity_ttl_once 50 "1.2.3.4" "x" Store.empty).1 (by decide),
   (trackSuspiciousActivity_ttl_once 99 "1.2.3.4" "y"
      (Blocking.trackSuspiciousActivity true 50 "1.2.3.4" "x" Store.empty)).2.1 1
      (by decide) (by decide) (by decide)⟩

/-- C4 counterexample: five trackSuspiciousActivity calls with activity
descriptions a, b, c, d, e produce a single blockIp call, but its reason is
"Multiple suspicious activities: e", not the latest activity description "e"
itself, so the recorded call list differs from the one the claim describes. -/
theorem trackSuspiciousActivity_reason_counterexample :
    (tsaRuns "1.2.3.4" [(1, "a"), (2, "b"), (3, "c"), (4, "d"), (5, "e")]
      Store.empty).blockLog ≠ [("1.2.3.4", "e", some 60)] := by
  decide

/-- C4 amended: five trackSuspiciousActivity calls from a fresh counter
produce exactly one blockIp call, with durationMinutes = 60 and reason
"Multiple suspicious activities: " followed by the latest activity
description, and afterwards the attempt counter and the details hash are both
absent. -/
theorem trackSuspiciousActivity_escalation (ip : String) (e1 e2 e3 e4 e5 : Nat × String)
    (s0 : Store) (h0 : (s0.counters (RKey.activity ip)).getD 0 = 0) :
    (tsaRuns ip [e1, e2, e3, e4, e5] s0).blockLog =
      s0.blockLog ++ [(ip, "Multiple suspicious activities: " ++ e5.2, some 60)] ∧
    (tsaRuns ip [e1, e2, e3, e4, e5] s0).counters (RKey.activity ip) = none ∧
    (tsaRuns ip [e1, e2, e3, e4, e5] s0).details (RKey.activityDetails ip) = none := by
  simp only [tsaRuns, List.foldl_cons, List.foldl_nil]
  set s1 := Blocking.trackSuspiciousActivity true e1.1 ip e1.2 s0 with hs1
  set s2 := Blocking.trackSuspiciousActivity true e2.1 ip e2.2 s1 with hs2
  set s3 := Blocking.trackSuspiciousActivity true e3.1 ip e3.2 s2 with hs3
  set s4 := Blocking.trackSuspiciousActivity true e4.1 ip e4.2 s3 with hs4
  have c1 : s1.counters (RKey.activity ip) = some 1 := by
    rw [hs1, tsa_counter_step, h0]
    rfl
  have l1 : s1.blockLog = s0.blockLog := by
    rw [hs1, tsa_blockLog_step, h0]
    rfl
  have c2 : s2.counters (RKey.activity ip) = some 2 := by
    rw [hs2, tsa_counter_step, c1]
    rfl
  have l2 : s2.blockLog = s0.blockLog := by
    rw [hs2, tsa_blockLog_step, c1, ← l1]
    rfl
  have c3 : s3.counters (RKey.activity ip) = some 3 := by
    rw [hs3, tsa_counter_step, c2]
    rfl
  have l3 : s3.blockLog = s0.blockLog := by
    rw [hs3, tsa_blockLog_step, c2, ← l2]
    rfl
  have c4 : s4.counters (RKey.activity ip) = some 4 := by
    rw [hs4, tsa_counter_step, c3]
    rfl
  have l4 : s4.blockLog = s0.blockLog := by
    rw [hs4, tsa_blockLog_step, c3, ← l3]
    rfl
  refine ⟨?_, ?_, ?_⟩
  · rw [tsa_blockLog_step, c4, l4]
    rfl
  · rw [tsa_counter_step, c4]
    rfl
  · rw [tsa_details_step, c4]
    rfl

/-- Witness for C4 (amended): the five calls with descriptions a..e on the
empty store. -/
theorem trackSuspiciousActivity_escalation_witness :
    (tsaRuns "1.2.3.4" [(1, "a"), (2, "b"), (3, "c"), (4, "d"), (5, "e")]
        Store.empty).blockLog =
      Store.empty.blockLog ++
        [("1.2.3.4", "Multiple suspicious activities: " ++ (5, "e").2, some 60)] ∧
    (tsaRuns "1.2.3.4" [(1, "a"), (2, "b"), (3, "c"), (4, "d"), (5, "e")]
        Store.empty).counters (RKey.activity "1.2.3.4") = none ∧
    (tsaRuns "1.2.3.4" [(1, "a"), (2, "b"), (3, "c"), (4, "d"), (5, "e")]
        Store.empty).details (RKey.activityDetails "1.2.3.4") = none :=
  trackSuspiciousActivity_escalation "1.2.3.4" (1, "a") (2, "b") (3, "c") (4, "d")
    (5, "e") Store.empty (by decide)

/-- C5: isBlocked returns false when no record is present; when the record is
temporary with an expiry strictly in the past it removes the record (so a
lookup finds nothing and getBlockedIps lists no record for that client) and
returns false; in every other present-record case — not temporary, no expiry
field, or not yet expired — it returns true with the store untouched, so in
particular a block created with no duration stays blocked at every time. -/
theorem isBlocked_cases (now : Nat) (ip : String) (s : Store)
    (hcoh : ∀ p ∈ s.blockedIps, p.2.ip = p.1) :
    (hget s.blockedIps ip = none → Blocking.isBlocked true now ip s = (false, s)) ∧
    (∀ b e, hget s.blockedIps ip = some b → b.isTemporary = true →
      b.expiresAt = some e → e < now →
      (Blocking.isBlocked true now ip s).1 = false ∧
      hget (Blocking.isBlocked true now ip s).2.blockedIps ip = none ∧
      ∀ r ∈ Blocking.getBlockedIps true (Blocking.isBlocked true now ip s).2,
        r.ip ≠ ip) ∧
    (∀ b, hget s.blockedIps ip = some b →
      (b.isTemporary = false ∨ b.expiresAt = none ∨
        (∃ e, b.expiresAt = some e ∧ now ≤ e)) →
      Blocking.isBlocked true now ip s = (true, s)) := by
  refine ⟨fun h => ?_, fun b e hb hT hE hlt => ?_, fun b hb hcase => ?_⟩
  · simp [Blocking.isBlocked, h]
  · have hrun : Blocking.isBlocked true now ip s =
        (false, { s with blockedIps := hdel s.blockedIps ip }) := by
      simp [Blocking.isBlocked, hb, hT, hE, hlt, Blocking.unblockIp]
    refine ⟨by rw [hrun], by rw [hrun]; exact hget_hdel_same _ _, ?_⟩
    intro r hr
    rw [hrun] at hr
    simp only [Blocking.getBlockedIps, if_true] at hr
    rcases List.mem_map.mp hr with ⟨p, hp, hpr⟩
    have hmem : p ∈ s.blockedIps := List.mem_of_mem_filter hp
    have hne : ¬ p.1 = ip := by
      have := List.of_mem_filter hp
      simpa using this
    rw [← hpr]
    rw [hcoh p hmem]
    exact hne
  · rcases hcase with hT | hE | ⟨e, hE, hle⟩
    · simp [Blocking.isBlocked, hb, hT]
    · simp [Blocking.isBlocked, hb, hE]
    · simp [Blocking.isBlocked, hb, hE, Nat.not_lt.mpr hle]

/-- Witness for C5: the expired temporary block of c5Store observed at
now = 200ms is reported unblocked and removed. -/
theorem isBlocked_cases_witness :
    (Blocking.isBlocked true 200 "1.2.3.4" c5Store).1 = false ∧
    hget (Blocking.isBlocked true 200 "1.2.3.4" c5Store).2.blockedIps "1.2.3.4" = none :=
  ⟨((isBlocked_cases 200 "1.2.3.4" c5Store (by decide)).2.1 c5Rec 100 (by decide)
      (by decide) (by decide) (by decide)).1,
   ((isBlocked_cases 200 "1.2.3.4" c5Store (by decide)).2.1 c5Rec 100 (by decide)
      (by decide) (by decide) (by decide)).2.1⟩

/-! ## blockIp / importMaliciousIpList: the written records -/

theorem blockIp_blockedIps (now : Nat) (ip reason : String) (d : Option Nat)
    (s : Store) :
    (Blocking.blockIp true now ip reason d s).blockedIps =
      hset s.blockedIps ip
        { ip := ip, reason := reason, blockedAt := now
          expiresAt :=
            if (match d with | some n => n != 0 | none => false) = true then
              some (now + d.getD 0 * 60000)
            else none
          isTemporary := match d with | some n => n != 0 | none => false } := by
  unfold Blocking.blockIp
  simp only [if_true]
  split <;> rfl

theorem mem_foldl_hset {β : Type} (rec : String → β) (ips : List String)
    (h0 : List (String × β)) (q : String × β)
    (hq : q ∈ ips.foldl (fun h x => hset h x (rec x)) h0) :
    q ∈ h0 ∨ ∃ x, q = (x, rec x) := by
  induction ips generalizing h0 with
  | nil => exact Or.inl hq
  | cons i rest ih =>
    rcases ih (hset h0 i (rec i)) hq with hmem | hx
    · rcases mem_hset h0 i (rec i) q hmem with hmem | hq
      · exact Or.inl hmem
      · exact Or.inr ⟨i, hq⟩
    · exact Or.inr hx

theorem hget_foldl_hset_absent {β : Type} (rec : String → β) (ips : List String)
    (h0 : List (String × β)) (x : String) (hx : x ∉ ips) :
    hget (ips.foldl (fun h i => hset h i (rec i)) h0) x = hget h0 x := by
  induction ips generalizing h0 with
  | nil => rfl
  | cons i rest ih =>
    have hxr : x ∉ rest := fun h => hx (List.mem_cons_of_mem _ h)
    have hxi : x ≠ i := fun h => hx (h ▸ List.mem_cons_self i rest)
    rw [List.foldl_cons, ih _ hxr, hget_hset_other _ _ _ _ hxi]

theorem hget_foldl_hset_mem {β : Type} (rec : String → β) (ips : List String)
    (h0 : List (String × β)) (x : String) (hx : x ∈ ips) :
    hget (ips.foldl (fun h i => hset h i (rec i)) h0) x = some (rec x) := by
  induction ips generalizing h0 with
  | nil => cases hx
  | cons i rest ih =>
    rw [List.foldl_cons]
    by_cases hxr : x ∈ rest
    · exact ih _ hxr
    · have hxi : x = i := by
        rcases List.mem_cons.mp hx with h | h
        · exact h
        · exact absurd h hxr
      subst hxi
      rw [hget_foldl_hset_absent _ _ _ _ hxr, hget_hset_same]

/-- C6 counterexample: blockIp called with durationMinutes present but equal
to 0 writes a record with isTemporary = false and no expiresAt (JS truthiness
of the duration), refuting "isTemporary exactly when durationMinutes is
present". -/
theorem blockIp_zero_duration_counterexample :
    hget (Blocking.blockIp true 0 "9.9.9.9" "r" (some 0) Store.empty).blockedIps
        "9.9.9.9" =
      some { ip := "9.9.9.9", reason := "r", blockedAt := 0, expiresAt := none
             isTemporary := false } ∧
    (some 0 : Option Nat).isSome = true := by
  constructor
  · decide
  · rfl

/-- C6 amended: every record written by blockIp or importMaliciousIpList
satisfies isTemporary = (expiresAt is present); blockIp sets isTemporary
exactly when durationMinutes is present and nonzero (JS truthiness), with
expiresAt = now + durationMinutes*60000 in that case and absent otherwise;
importMaliciousIpList writes only permanent records. -/
theorem blockRecord_invariant (now : Nat) (ip reason : String) (d : Option Nat)
    (ips : List String) (reason2 : String) (s : Store)
    (hs : ∀ p ∈ s.blockedIps, p.2.isTemporary = p.2.expiresAt.isSome) :
    hget (Blocking.blockIp true now ip reason d s).blockedIps ip =
      some { ip := ip, reason := reason, blockedAt := now
             expiresAt :=
               if d.getD 0 != 0 then some (now + d.getD 0 * 60000) else none
             isTemporary := d.getD 0 != 0 } ∧
    (∀ p ∈ (Blocking.blockIp true now ip reason d s).blockedIps,
      p.2.isTemporary = p.2.expiresAt.isSome) ∧
    (∀ p ∈ (Blocking.importMaliciousIpList true now ips reason2 s).blockedIps,
      p.2.isTemporary = p.2.expiresAt.isSome) ∧
    (∀ x ∈ ips,
      (hget (Blocking.importMaliciousIpList true now ips reason2 s).blockedIps x).map
        (fun b => (b.isTemporary, b.expiresAt, b.reason)) =
        some (false, none, reason2)) := by
  refine ⟨?_, ?_, ?_, ?_⟩
  · rw [blockIp_blockedIps, hget_hset_same]
    rcases d with _ | n <;> simp
  · intro p hp
    rw [blockIp_blockedIps] at hp
    rcases mem_hset _ _ _ _ hp with hmem | hq
    · exact hs p hmem
    · rw [hq]
      rcases d with _ | n
      · rfl
      · by_cases hn : n = 0 <;> simp [hn]
  · intro p hp
    have hfold : (Blocking.importMaliciousIpList true now ips reason2 s).blockedIps =
        ips.foldl (fun h x => hset h x
          { ip := x, reason := reason2, blockedAt := now, expiresAt := none
            isTemporary := false }) s.blockedIps := rfl
    rw [hfold] at hp
    rcases mem_foldl_hset _ _ _ _ hp with hmem | ⟨x, hq⟩
    · exact hs p hmem
    · rw [hq]
      rfl
  · intro x hx
    have hfold : (Blocking.importMaliciousIpList true now ips reason2 s).blockedIps =
        ips.foldl (fun h x => hset h x
          { ip := x, reason := reason2, blockedAt := now, expiresAt := none
            isTemporary := false }) s.blockedIps := rfl
    rw [hfold, hget_foldl_hset_mem _ _ _ _ hx]
    rfl

/-- Witness for C6 (amended): blockIp with the quirky zero duration on the
empty store. -/
theorem blockRecord_invariant_witness :
    hget (Blocking.blockIp true 0 "8.8.8.8" "r" (some 0) Store.empty).blockedIps
        "8.8.8.8" =
      some { ip := "8.8.8.8", reason := "r", blockedAt := 0
             expiresAt :=
               if (some 0 : Option Nat).getD 0 != 0 then
                 some (0 + (some 0 : Option Nat).getD 0 * 60000)
               else none
             isTemporary := (some 0 : Option Nat).getD 0 != 0 } :=
  (blockRecord_invariant 0 "8.8.8.8" "r" (some 0) [] "m" Store.empty
    (by decide)).1

/-! ## addToSuspiciousIps: record evolution -/

theorem addToSuspiciousIps_fresh (now : Nat) (ip reason : String) (s : Store)
    (h : s.suspicious (RKey.suspIps ip) = none) :
    (Security.addToSuspiciousIps true now ip reason s).suspicious (RKey.suspIps ip) =
      some { ip := ip, reasons := [reason], firstSeen := now, lastSeen := now
             count := 1, severity := "medium" } := by
  simp [Security.addToSuspiciousIps, h, upd]

theorem addToSuspiciousIps_existing (now : Nat) (ip reason : String) (s : Store)
    (d : SuspiciousData) (h : s.suspicious (RKey.suspIps ip) = some d) :
    (Security.addToSuspiciousIps true now ip reason s).suspicious (RKey.suspIps ip) =
      some (updSusp now reason d) := by
  simp [Security.addToSuspiciousIps, updSusp, h, upd]

theorem addToSuspiciousIps_ttl_set (now : Nat) (ip reason : String) (s : Store) :
    (Security.addToSuspiciousIps true now ip reason s).ttl (RKey.suspIps ip) =
      some (now + 24 * 60 * 60 * 1000) := by
  simp [Security.addToSuspiciousIps, upd]

theorem addRuns_existing (ip : String) (evs : List (Nat × String)) (s : Store)
    (d : SuspiciousData) (h : s.suspicious (RKey.suspIps ip) = some d) :
    (addRuns ip evs s).suspicious (RKey.suspIps ip) =
      some (evs.foldl (fun d e => updSusp e.1 e.2 d) d) := by
  induction evs generalizing s d with
  | nil => simpa [addRuns] using h
  | cons e rest ih =>
    show (addRuns ip rest (Security.addToSuspiciousIps true e.1 ip e.2 s)).suspicious _ = _
    exact ih _ _ (addToSuspiciousIps_existing e.1 ip e.2 s d h)

theorem foldSusp_closed (evs : List (Nat × String)) (d : SuspiciousData) :
    evs.foldl (fun d e => updSusp e.1 e.2 d) d =
      { ip := d.ip
        reasons := d.reasons ++ evs.map Prod.snd
        firstSeen := d.firstSeen
        lastSeen := (evs.map Prod.fst).getLastD d.lastSeen
        count := d.count + evs.length
        severity :=
          if evs = [] then d.severity
          else if d.count + evs.length > 6 then "high" else "medium" } := by
  induction evs generalizing d with
  | nil => cases d; simp
  | cons e rest ih =>
    rw [List.foldl_cons, ih]
    have hcons : ((e :: rest : List (Nat × String)) = []) = False := by
      simp
    simp only [updSusp, SuspiciousData.mk.injEq, List.map_cons, List.getLastD_cons,
      List.length_cons, List.append_assoc, List.singleton_append, hcons, if_false,
      true_and, and_true]
    refine ⟨by omega, ?_⟩
    rcases eq_or_ne rest [] with hr | hr
    · subst hr
      rw [if_pos rfl]
      simp only [List.length_nil]
      exact if_congr (by omega) rfl rfl
    · rw [if_neg hr]
      exact if_congr (by omega) rfl rfl

theorem addRuns_ttl_last (ip : String) (e : Nat × String) (evs : List (Nat × String))
    (s : Store) :
    (addRuns ip (e :: evs) s).ttl (RKey.suspIps ip) =
      some ((evs.map Prod.fst).getLastD e.1 + 24 * 60 * 60 * 1000) := by
  induction evs generalizing s e with
  | nil => exact addToSuspiciousIps_ttl_set e.1 ip e.2 s
  | cons f rest ih =>
    show (addRuns ip (f :: rest) (Security.addToSuspiciousIps true e.1 ip e.2 s)).ttl _ = _
    rw [ih, List.map_cons, List.getLastD_cons]

/-- C7 counterexample: after six addToSuspiciousIps events the stored record
has count = 6 but severity "medium", while the claim's formula
(count > 5 applied to the updated count) demands "high". -/
theorem addToSuspiciousIps_severity_counterexample :
    ((addRuns "1.2.3.4" [(1, "r1"), (2, "r2"), (3, "r3"), (4, "r4"), (5, "r5"), (6, "r6")]
        Store.empty).suspicious (RKey.suspIps "1.2.3.4")).map
      (fun d => (d.count, d.severity)) = some (6, "medium") ∧
    (if 6 > 5 then "high" else "medium") = "high" := by
  constructor
  · decide
  · rfl

/-- C7 amended: after the nth event the stored record has count = n, the
ordered list of all n reasons, lastSeen = the nth write time, its 24-hour TTL
reset by that write, and severity recomputed from the pre-increment count, so
"high" exactly when n > 6 (the source tests parsed.count > 5 before the
increment). -/
theorem addToSuspiciousIps_accumulates (ip : String) (e : Nat × String)
    (evs : List (Nat × String)) (s0 : Store)
    (h0 : s0.suspicious (RKey.suspIps ip) = none) :
    (addRuns ip (e :: evs) s0).suspicious (RKey.suspIps ip) =
      some { ip := ip
             reasons := (e :: evs).map Prod.snd
             firstSeen := e.1
             lastSeen := (evs.map Prod.fst).getLastD e.1
             count := evs.length + 1
             severity := if evs.length + 1 > 6 then "high" else "medium" } ∧
    (addRuns ip (e :: evs) s0).ttl (RKey.suspIps ip) =
      some ((evs.map Prod.fst).getLastD e.1 + 24 * 60 * 60 * 1000) := by
  refine ⟨?_, addRuns_ttl_last ip e evs s0⟩
  have hstep : (addRuns ip (e :: evs) s0) =
      addRuns ip evs (Security.addToSuspiciousIps true e.1 ip e.2 s0) := rfl
  rw [hstep, addRuns_existing ip evs _ _ (addToSuspiciousIps_fresh e.1 ip e.2 s0 h0),
    foldSusp_closed]
  simp only [Option.some.injEq, SuspiciousData.mk.injEq, List.map_cons,
    List.singleton_append, true_and, and_true]
  refine ⟨by omega, ?_⟩
  rcases eq_or_ne evs [] with hevs | hevs
  · subst hevs
    rfl
  · rw [if_neg hevs]
    exact if_congr (by omega) rfl rfl

/-- Witness for C7 (amended): two events on the empty store. -/
theorem addToSuspiciousIps_accumulates_witness :
    (addRuns "1.2.3.4" [(1, "r1"), (2, "r2")] Store.empty).suspicious
        (RKey.suspIps "1.2.3.4") =
      some { ip := "1.2.3.4"
             reasons := [(1, "r1"), (2, "r2")].map Prod.snd
             firstSeen := (1, "r1").1
             lastSeen := ([(2, "r2")].map Prod.fst).getLastD (1, "r1").1
             count := [(2, "r2")].length + 1
             severity :=
               if [(2, "r2")].length + 1 > 6 then "high" else "medium" } ∧
    (addRuns "1.2.3.4" [(1, "r1"), (2, "r2")] Store.empty).ttl
        (RKey.suspIps "1.2.3.4") =
      some (([(2, "r2")].map Prod.fst).getLastD (1, "r1").1 + 24 * 60 * 60 * 1000) :=
  addToSuspiciousIps_accumulates "1.2.3.4" (1, "r1") [(2, "r2")] Store.empty rfl

/-- C8: getSystemMetrics computes p95 and p99 as the elements at indices
floor(n*0.95) and floor(n*0.99) of the ascending-sorted response times
recorded in the last 5 minutes, and average as their arithmetic mean; on the
synthetic set 10, 20, ..., 1000 (100 samples, recorded through recordMetric)
it returns average 505 and p95/p99 equal to the sorted values at indices 95
and 99, namely 960 and 1000. -/
theorem getSystemMetrics_percentiles :
    (∀ now s, (Perf.getSystemMetrics true now s).responseTime.p95 =
      (recentResponseTimesSorted now s).getD
        ((recentResponseTimesSorted now s).length * 95 / 100) 0) ∧
    (∀ now s, (Perf.getSystemMetrics true now s).responseTime.p99 =
      (recentResponseTimesSorted now s).getD
        ((recentResponseTimesSorted now s).length * 99 / 100) 0) ∧
    (∀ now s, (Perf.getSystemMetrics true now s).responseTime.average =
      (if (recentResponseTimesSorted now s).length > 0 then
        ((recentResponseTimesSorted now s).map (fun t => (t : ℚ))).sum /
          ((recentResponseTimesSorted now s).length : ℚ)
      else 0)) ∧
    recentResponseTimesSorted 1000000000 c8Store = c8Times ∧
    c8Times.getD (c8Times.length * 95 / 100) 0 = 960 ∧
    c8Times.getD (c8Times.length * 99 / 100) 0 = 1000 ∧
    (Perf.getSystemMetrics true 1000000000 c8Store).responseTime.p95 = 960 ∧
    (Perf.getSystemMetrics true 1000000000 c8Store).responseTime.p99 = 1000 ∧
    (Perf.getSystemMetrics true 1000000000 c8Store).responseTime.average = 505 ∧
    (c8Times.map (fun t => (t : ℚ))).sum / (c8Times.length : ℚ) = 505 := by
  have hlist : recentResponseTimesSorted 1000000000 c8Store = c8Times := by decide
  have hsum : c8Times.sum = 50500 := by decide
  have hlen : c8Times.length = 100 := by decide
  have hcast : (c8Times.map (fun t => (t : ℚ))).sum = ((c8Times.sum : ℕ) : ℚ) := by
    push_cast
    rfl
  have havg : (c8Times.map (fun t => (t : ℚ))).sum / (c8Times.length : ℚ) = 505 := by
    rw [hcast, hsum, hlen]
    norm_num
  refine ⟨fun _ _ => rfl, fun _ _ => rfl, fun _ _ => rfl, hlist, by decide, by decide,
    by decide, by decide, ?_, havg⟩
  have hgen : (Perf.getSystemMetrics true 1000000000 c8Store).responseTime.average =
      (if (recentResponseTimesSorted 1000000000 c8Store).length > 0 then
        ((recentResponseTimesSorted 1000000000 c8Store).map (fun t => (t : ℚ))).sum /
          ((recentResponseTimesSorted 1000000000 c8Store).length : ℚ)
      else 0) := rfl
  rw [hgen, hlist, hlen]
  rw [if_pos (by norm_num)]
  rw [hlen] at havg
  exact havg

end JobPay
